import Mathlib

set_option autoImplicit false

namespace Ada

/-!
Shallow embedding of the Ada daemon's session engine
(src-tauri/src: terminal/types.rs, daemon/{persistence,session,server,notification}.rs,
terminal/commands.rs).  Strings model Rust `String`/`PathBuf`, `Nat` models
timestamps (`DateTime<Utc>` ordered instants) and byte values, and `List Nat`
models byte buffers/files.  Filesystem and PTY syscalls are modelled through an
explicit environment (`Env`) whose flags say whether they succeed.
-/

/-- terminal/types.rs `TerminalMode`. -/
inductive TerminalMode where
  | main
  | folder
  | currentBranch
  | worktree
  deriving DecidableEq, Repr

/-- terminal/types.rs `AgentStatus`. -/
inductive AgentStatus where
  | idle
  | working
  | permission
  | review
  deriving DecidableEq, Repr

/-- terminal/types.rs `TerminalStatus`. -/
inductive TerminalStatus where
  | starting
  | running
  | stopped
  | error
  deriving DecidableEq, Repr

/-- terminal/types.rs `CommandSpec`; the env map is an association list. -/
structure CommandSpec where
  command : String
  args : List String
  env : List (String × String)
  deriving DecidableEq, Repr

/-- terminal/types.rs `Terminal`. -/
structure Terminal where
  id : String
  project_id : String
  name : String
  client_id : String
  working_dir : String
  branch : Option String
  worktree_path : Option String
  status : TerminalStatus
  created_at : Nat
  command : CommandSpec
  shell : Option String
  agent_status : AgentStatus
  mode : TerminalMode
  is_main : Bool
  folder_path : Option String
  deriving DecidableEq, Repr

/-- terminal/types.rs `TerminalInfo` (path fields rendered to strings). -/
structure TerminalInfo where
  id : String
  project_id : String
  name : String
  client_id : String
  working_dir : String
  branch : Option String
  worktree_path : Option String
  status : TerminalStatus
  created_at : Nat
  command : CommandSpec
  shell : Option String
  agent_status : AgentStatus
  mode : TerminalMode
  is_main : Bool
  folder_path : Option String
  deriving DecidableEq, Repr

/-- terminal/types.rs `impl From<&Terminal> for TerminalInfo` (paths are already
strings in this embedding, so the conversion is field-for-field). -/
def TerminalInfo.ofTerminal (t : Terminal) : TerminalInfo :=
  { id := t.id
    project_id := t.project_id
    name := t.name
    client_id := t.client_id
    working_dir := t.working_dir
    branch := t.branch
    worktree_path := t.worktree_path
    status := t.status
    created_at := t.created_at
    command := t.command
    shell := t.shell
    agent_status := t.agent_status
    mode := t.mode
    is_main := t.is_main
    folder_path := t.folder_path }

/-- daemon/persistence.rs `SessionMeta`. -/
structure SessionMeta where
  terminal_id : String
  project_id : String
  name : String
  client_id : String
  working_dir : String
  branch : Option String
  worktree_path : Option String
  folder_path : Option String
  is_main : Bool
  mode : TerminalMode
  command : CommandSpec
  shell : Option String
  cols : Nat
  rows : Nat
  created_at : Nat
  last_activity : Nat
  ended_at : Option Nat
  scrollback_bytes : Nat
  deriving DecidableEq, Repr

/-- error.rs `Error`.  The `InvalidRequest` variant is referenced throughout the
source (daemon/session.rs, terminal/commands.rs, project/commands.rs) and
corresponds to the spec's `invalid_request` error kind. -/
inductive Error where
  | ProjectNotFound (msg : String)
  | TerminalNotFound (msg : String)
  | GitError (msg : String)
  | IoError (msg : String)
  | ConfigError (msg : String)
  | TerminalError (msg : String)
  | ClientNotFound (msg : String)
  | WorktreeError (msg : String)
  | SerializationError (msg : String)
  | InvalidRequest (msg : String)
  deriving DecidableEq, Repr

/-- daemon/protocol.rs `DaemonEvent`. -/
inductive DaemonEvent where
  | terminalOutput (terminal_id : String) (data : String)
  | terminalStatus (terminal_id : String) (project_id : String) (status : TerminalStatus)
  | agentStatus (terminal_id : String) (status : AgentStatus)
  | hookEvent (terminal_id : String) (project_id : Option String) (agent : String)
      (event : String) (payload : Option String)
  deriving DecidableEq, Repr

/-- daemon/protocol.rs `DaemonResponse` (the variants the claims exercise). -/
inductive DaemonResponse where
  | Ok
  | Pong
  | ErrorR (message : String)
  | SessionR (session : TerminalInfo)
  | TerminalStatusResponse (terminal_id : String) (status : TerminalStatus)
  deriving DecidableEq, Repr

/-- daemon/protocol.rs `CreateSessionRequest`. -/
structure CreateSessionRequest where
  terminal_id : String
  project_id : String
  name : String
  client_id : String
  working_dir : String
  branch : Option String
  worktree_path : Option String
  folder_path : Option String
  is_main : Bool
  mode : TerminalMode
  command : CommandSpec
  cols : Nat
  rows : Nat
  deriving DecidableEq, Repr

/-! ### Association lists modelling `HashMap<String, _>` -/

/-- `HashMap::get`. -/
def alookup {α : Type} : List (String × α) → String → Option α
  | [], _ => none
  | (k, v) :: rest, key => if k = key then some v else alookup rest key

/-- `HashMap::remove` (drops every binding of the key; the registry keeps at
most one). -/
def aerase {α : Type} : List (String × α) → String → List (String × α)
  | [], _ => []
  | (k, v) :: rest, key => if k = key then aerase rest key else (k, v) :: aerase rest key

/-- `HashMap::insert`: the new binding replaces any previous one. -/
def ainsert {α : Type} (l : List (String × α)) (key : String) (v : α) : List (String × α) :=
  (key, v) :: aerase l key

/-! ### UTF-8 byte-level model

`validUtf8` models `std::str::from_utf8(..).is_ok()` and `utf8LossyBytes`
models the bytes of `String::from_utf8_lossy(..)` (each maximal invalid
subsequence becomes one U+FFFD, encoded EF BF BD, resuming validation at the
byte where the error was detected, matching Rust's error-length rules). -/

/-- A UTF-8 continuation byte (0x80..=0xBF). -/
def isCont (c : Nat) : Bool := 128 ≤ c && c ≤ 191

/-- Allowed second byte of a 3-byte sequence with lead `b`. -/
def cont2ok (b c : Nat) : Bool :=
  if b = 224 then 160 ≤ c && c ≤ 191
  else if b = 237 then 128 ≤ c && c ≤ 159
  else isCont c

/-- Allowed second byte of a 4-byte sequence with lead `b`. -/
def cont3ok (b c : Nat) : Bool :=
  if b = 240 then 144 ≤ c && c ≤ 191
  else if b = 244 then 128 ≤ c && c ≤ 143
  else isCont c

/-- `std::str::from_utf8(bytes).is_ok()`. -/
def validUtf8 : List Nat → Bool
  | [] => true
  | b :: rest =>
    if b < 128 then validUtf8 rest
    else if 194 ≤ b && b ≤ 223 then
      match rest with
      | c :: rest2 => isCont c && validUtf8 rest2
      | [] => false
    else if 224 ≤ b && b ≤ 239 then
      match rest with
      | c :: rest2 =>
        cont2ok b c &&
          (match rest2 with
           | d :: rest3 => isCont d && validUtf8 rest3
           | [] => false)
      | [] => false
    else if 240 ≤ b && b ≤ 244 then
      match rest with
      | c :: rest2 =>
        cont3ok b c &&
          (match rest2 with
           | d :: rest3 =>
             isCont d &&
               (match rest3 with
                | e :: rest4 => isCont e && validUtf8 rest4
                | [] => false)
           | [] => false)
      | [] => false
    else false

/-- The UTF-8 encoding of U+FFFD. -/
def utf8Rep : List Nat := [239, 191, 189]

/-- Bytes of `String::from_utf8_lossy(bytes)`. -/
def utf8LossyBytes : List Nat → List Nat
  | [] => []
  | b :: rest =>
    if b < 128 then b :: utf8LossyBytes rest
    else if 194 ≤ b && b ≤ 223 then
      match _hr : rest with
      | c :: rest2 =>
        if isCont c then b :: c :: utf8LossyBytes rest2
        else utf8Rep ++ utf8LossyBytes rest
      | [] => utf8Rep
    else if 224 ≤ b && b ≤ 239 then
      match _hr : rest with
      | c :: rest2 =>
        if cont2ok b c then
          match _hr2 : rest2 with
          | d :: rest3 =>
            if isCont d then b :: c :: d :: utf8LossyBytes rest3
            else utf8Rep ++ utf8LossyBytes rest2
          | [] => utf8Rep
        else utf8Rep ++ utf8LossyBytes rest
      | [] => utf8Rep
    else if 240 ≤ b && b ≤ 244 then
      match _hr : rest with
      | c :: rest2 =>
        if cont3ok b c then
          match _hr2 : rest2 with
          | d :: rest3 =>
            if isCont d then
              match _hr3 : rest3 with
              | e :: rest4 =>
                if isCont e then b :: c :: d :: e :: utf8LossyBytes rest4
                else utf8Rep ++ utf8LossyBytes rest3
              | [] => utf8Rep
            else utf8Rep ++ utf8LossyBytes rest2
          | [] => utf8Rep
        else utf8Rep ++ utf8LossyBytes rest
      | [] => utf8Rep
    else utf8Rep ++ utf8LossyBytes rest
termination_by bs => bs.length
decreasing_by all_goals (subst_vars; simp; try omega)

/-- daemon/persistence.rs `truncate_utf8_safe`: the source loop is
`for i in 0..4.min(bytes.len())`, unrolled here (so `i` ranges over
`0,1,2,3` subject to `i < min 4 bytes.length`). -/
def truncate_utf8_safe (bytes : List Nat) : List Nat :=
  let n := min 4 bytes.length
  if 0 < n ∧ validUtf8 (bytes.drop 0) = true then bytes.drop 0
  else if 1 < n ∧ validUtf8 (bytes.drop 1) = true then bytes.drop 1
  else if 2 < n ∧ validUtf8 (bytes.drop 2) = true then bytes.drop 2
  else if 3 < n ∧ validUtf8 (bytes.drop 3) = true then bytes.drop 3
  else bytes

/-! ### Persistence (daemon/persistence.rs)

The scrollback file is modelled as the byte list `file`; the `BufWriter` is
abstracted away (writes are visible at once), so `file` is the content at any
flush point and an upper bound for the physical file length in between.
`flush`/`save_meta` do not change the scrollback content. -/

def MAX_SCROLLBACK_BYTES : Nat := 5 * 1024 * 1024

/-- The literal `4 * 1024 * 1024` in `rotate_scrollback` (the spec's
`KEEP_AFTER_ROTATE`). -/
def KEEP_AFTER_ROTATE : Nat := 4 * 1024 * 1024

/-- The literal `4096` flush threshold in `write_output`. -/
def FLUSH_EVERY_BYTES : Nat := 4096

/-- daemon/persistence.rs `SessionPersistence` (the `session_dir` and the raw
file handle are implicit; `file` is the scrollback content). -/
structure SessionPersistence where
  file : List Nat
  bytes_written : Nat
  bytes_since_flush : Nat
  meta : SessionMeta
  deriving DecidableEq, Repr

/-- `SessionPersistence::new`: fresh directory, truncated scrollback, meta
saved. -/
def SessionPersistence.new (meta : SessionMeta) : SessionPersistence :=
  { file := [], bytes_written := 0, bytes_since_flush := 0, meta := meta }

/-- `SessionPersistence::open_existing` over the existing scrollback content:
append mode, `bytes_written` taken from `meta.scrollback_bytes`. -/
def SessionPersistence.open_existing (meta : SessionMeta) (scrollback : List Nat) :
    SessionPersistence :=
  { file := scrollback, bytes_written := meta.scrollback_bytes, bytes_since_flush := 0,
    meta := meta }

/-- `SessionPersistence::rotate_scrollback`: flush, read the file, keep the
tail of at most `4 * 1024 * 1024` bytes, UTF-8-safe-trim its head, rewrite. -/
def rotate_scrollback (p : SessionPersistence) : SessionPersistence :=
  let content := p.file
  let keep_from := content.length - KEEP_AFTER_ROTATE
  let truncated := truncate_utf8_safe (content.drop keep_from)
  { p with file := truncated, bytes_written := truncated.length }

/-- `SessionPersistence::write_output` (`now` models `Utc::now()`). -/
def write_output (now : Nat) (p : SessionPersistence) (data : List Nat) :
    SessionPersistence :=
  let p := if MAX_SCROLLBACK_BYTES < p.bytes_written + data.length
    then rotate_scrollback p else p
  let p := { p with
    file := p.file ++ data,
    bytes_written := p.bytes_written + data.length,
    bytes_since_flush := p.bytes_since_flush + data.length }
  let p := { p with
    meta := { p.meta with scrollback_bytes := p.bytes_written, last_activity := now } }
  if FLUSH_EVERY_BYTES ≤ p.bytes_since_flush then { p with bytes_since_flush := 0 } else p

/-- `SessionPersistence::mark_ended`: flush, set `ended_at = now`, save meta. -/
def mark_ended (now : Nat) (p : SessionPersistence) : SessionPersistence :=
  { p with meta := { p.meta with ended_at := some now } }

/-- One iteration of the pty-reader loop body on a successful `read` of
`chunk` (daemon/session.rs, `spawn_pty` reader thread): the chunk is decoded
with `String::from_utf8_lossy` and the resulting string's bytes are handed to
`write_output`. -/
def reader_append (now : Nat) (p : SessionPersistence) (chunk : List Nat) :
    SessionPersistence :=
  write_output now p (utf8LossyBytes chunk)

/-! ### Session manager (daemon/session.rs)

`Env` models the outside world: which directories exist, whether PTY spawning
and config persistence succeed, the login shell reported by the OS user
database, and the current time. -/

structure Env where
  dirs : List String
  spawnOk : Bool
  persistOk : Bool
  loginShell : Option String
  now : Nat
  deriving DecidableEq, Repr

/-- daemon/shell.rs `ShellConfig`. -/
structure ShellConfig where
  path : String
  name : String
  login_args : List String
  deriving DecidableEq, Repr

/-- daemon/shell.rs `ShellConfig::detect`: explicit override, else the user
database (`env.loginShell` stands for `get_user_shell()`), else `/bin/bash`;
`--login` for fish, `-l` otherwise. -/
def ShellConfig.detect (env : Env) (shell_override : Option String) : ShellConfig :=
  let path := (shell_override.orElse (fun _ => env.loginShell)).getD "/bin/bash"
  let name := (path.splitOn "/").getLastD "bash"
  { path := path, name := name,
    login_args := if name = "fish" then ["--login"] else ["-l"] }

/-- daemon/session.rs `SessionEntry`.  `pty`/`reader_handle` are presence
flags for the transient handles; `shutdown` is the flag's value. -/
structure SessionEntry where
  terminal : Terminal
  pty : Option Unit
  persistence : SessionPersistence
  cols : Nat
  rows : Nat
  shutdown : Bool
  reader_handle : Option Unit
  deriving DecidableEq, Repr

/-- The manager-owned state: the registry, the set of on-disk session
directories under `sessions_dir`, the stored shell override, and the log of
events sent on the broadcast channel. -/
structure ManagerState where
  sessions : List (String × SessionEntry)
  disk : List String
  shell_override : Option String
  events : List DaemonEvent
  deriving DecidableEq, Repr

/-- `fs::create_dir_all` for a session directory. -/
def insertDir (disk : List String) (id : String) : List String :=
  if id ∈ disk then disk else id :: disk

/-- `fs::remove_dir_all` for a session directory. -/
def removeDir (disk : List String) (id : String) : List String :=
  disk.filter (fun d => d ≠ id)

/-- daemon/session.rs `emit_status` (send errors are ignored). -/
def emit_status (st : ManagerState) (terminal : Terminal) : ManagerState :=
  { st with events :=
      st.events ++ [DaemonEvent.terminalStatus terminal.id terminal.project_id terminal.status] }

/-- daemon/session.rs `spawn_pty`, abstracted to its observable outcome: the
shell is detected and recorded on the terminal before the PTY is opened; the
spawn succeeds iff `env.spawnOk`.  The returned unit stands for the
`(PtyHandle, JoinHandle)` pair. -/
def spawn_pty (env : Env) (shell_override : Option String) (terminal : Terminal) :
    Except Error (Terminal × Unit) :=
  let shell := ShellConfig.detect env shell_override
  let terminal := { terminal with shell := some shell.path }
  if env.spawnOk then Except.ok (terminal, ()) else Except.error (.TerminalError "failed to spawn PTY")

/-- daemon/session.rs `SessionManager::get_session`. -/
def get_session (st : ManagerState) (terminal_id : String) : Except Error TerminalInfo :=
  match alookup st.sessions terminal_id with
  | some entry => Except.ok (TerminalInfo.ofTerminal entry.terminal)
  | none => Except.error (.TerminalNotFound terminal_id)

/-- daemon/session.rs `SessionManager::create_session`.  Note: the source
performs no duplicate-id check; the final `HashMap::insert` replaces any
existing entry.  (On a spawn failure the already-created session directory is
left behind by the source; the error return here drops that bookkeeping, which
no claim depends on.) -/
def create_session (env : Env) (st : ManagerState) (request : CreateSessionRequest) :
    Except Error (ManagerState × TerminalInfo) :=
  if request.working_dir ∈ env.dirs then
    let shell := ShellConfig.detect env st.shell_override
    let terminal : Terminal := {
      id := request.terminal_id
      project_id := request.project_id
      name := request.name
      client_id := request.client_id
      working_dir := request.working_dir
      branch := request.branch
      worktree_path := request.worktree_path
      status := TerminalStatus.starting
      created_at := env.now
      command := request.command
      shell := some shell.path
      agent_status := AgentStatus.idle
      mode := request.mode
      is_main := request.is_main
      folder_path := request.folder_path }
    let meta : SessionMeta := {
      terminal_id := terminal.id
      project_id := terminal.project_id
      name := terminal.name
      client_id := terminal.client_id
      working_dir := terminal.working_dir
      branch := terminal.branch
      worktree_path := terminal.worktree_path
      folder_path := terminal.folder_path
      is_main := terminal.is_main
      mode := terminal.mode
      command := terminal.command
      shell := terminal.shell
      cols := request.cols
      rows := request.rows
      created_at := terminal.created_at
      last_activity := terminal.created_at
      ended_at := none
      scrollback_bytes := 0 }
    let persistence := SessionPersistence.new meta
    let st := { st with disk := insertDir st.disk request.terminal_id }
    match spawn_pty env st.shell_override terminal with
    | Except.error e => Except.error e
    | Except.ok (terminal, _pty) =>
      let terminal := { terminal with status := TerminalStatus.running }
      let entry : SessionEntry := {
        terminal := terminal
        pty := some ()
        persistence := persistence
        cols := request.cols
        rows := request.rows
        shutdown := false
        reader_handle := some () }
      let st := { st with sessions := ainsert st.sessions terminal.id entry }
      let st := emit_status st terminal
      Except.ok (st, TerminalInfo.ofTerminal terminal)
  else
    Except.error (.InvalidRequest ("Working directory does not exist: " ++ request.working_dir))

/-- daemon/session.rs `SessionManager::close_session`: remove the entry (or
fail with `TerminalNotFound`), set the shutdown flag, drop the reader handle
without joining, mark the persistence ended, attempt to remove the session
directory, emit `TerminalStatus::Stopped`.  The source discards the
`io::Result` of `fs::remove_dir_all` (`let _ = ..`), so the operation returns
`Ok` whether or not the directory removal succeeds; `removeOk` says whether
that filesystem call succeeds.  There is no `is_main` check here. -/
def close_session (now : Nat) (removeOk : Bool) (st : ManagerState) (terminal_id : String) :
    Except Error ManagerState :=
  match alookup st.sessions terminal_id with
  | none => Except.error (.TerminalNotFound terminal_id)
  | some entry =>
    let entry := { entry with shutdown := true, reader_handle := none }
    let entry := { entry with persistence := mark_ended now entry.persistence }
    let st := { st with
      sessions := aerase st.sessions terminal_id,
      disk := if removeOk then removeDir st.disk terminal_id else st.disk }
    let st := emit_status st { entry.terminal with status := TerminalStatus.stopped }
    Except.ok st

/-- daemon/session.rs `SessionManager::mark_session_stopped`: drop the PTY
handle, set `status = stopped`, mark the persistence ended, emit the status,
keep the entry; returns the (now stopped) status. -/
def mark_session_stopped (now : Nat) (st : ManagerState) (terminal_id : String) :
    Except Error (ManagerState × TerminalStatus) :=
  match alookup st.sessions terminal_id with
  | none => Except.error (.TerminalNotFound terminal_id)
  | some entry =>
    let entry := { entry with
      pty := none,
      terminal := { entry.terminal with status := TerminalStatus.stopped } }
    let entry := { entry with persistence := mark_ended now entry.persistence }
    let st := { st with sessions := ainsert st.sessions terminal_id entry }
    let st := emit_status st entry.terminal
    Except.ok (st, entry.terminal.status)

/-- daemon/session.rs `load_from_disk`, body for one session directory whose
`meta.json` parsed: build the terminal with `status = stopped`, open the
persistence, and iff `ended_at` is null attempt a PTY respawn (failure leaves
the stopped entry).  The returned flag records whether a respawn was
attempted. -/
def load_entry (env : Env) (shell_override : Option String) (meta : SessionMeta)
    (scrollback : List Nat) : SessionEntry × Bool :=
  let terminal : Terminal := {
    id := meta.terminal_id
    project_id := meta.project_id
    name := meta.name
    client_id := meta.client_id
    working_dir := meta.working_dir
    branch := meta.branch
    worktree_path := meta.worktree_path
    status := TerminalStatus.stopped
    created_at := meta.created_at
    command := meta.command
    shell := meta.shell
    agent_status := AgentStatus.idle
    mode := meta.mode
    is_main := meta.is_main
    folder_path := meta.folder_path }
  let persistence := SessionPersistence.open_existing meta scrollback
  if meta.ended_at = none then
    match spawn_pty env shell_override terminal with
    | Except.ok (terminal, _pty) =>
      ({ terminal := { terminal with status := TerminalStatus.running }
         pty := some ()
         persistence := persistence
         cols := meta.cols
         rows := meta.rows
         shutdown := false
         reader_handle := some () }, true)
    | Except.error _ =>
      ({ terminal := terminal
         pty := none
         persistence := persistence
         cols := meta.cols
         rows := meta.rows
         shutdown := false
         reader_handle := none }, true)
  else
    ({ terminal := terminal
       pty := none
       persistence := persistence
       cols := meta.cols
       rows := meta.rows
       shutdown := false
       reader_handle := none }, false)

/-- The `load_from_disk` loop body for one directory entry: a directory whose
`meta.json` failed to parse (`none`) is skipped (`continue`); otherwise the
loaded entry is inserted. -/
def loadStep (env : Env) (shell_override : Option String)
    (sessions : List (String × SessionEntry)) (d : Option SessionMeta × List Nat) :
    List (String × SessionEntry) :=
  match d.1 with
  | none => sessions
  | some meta => ainsert sessions meta.terminal_id (load_entry env shell_override meta d.2).1

/-- daemon/session.rs `load_from_disk`: each directory contributes its parsed
`meta.json` (`none` when `load_meta` failed to parse it) and its scrollback
content. -/
def load_from_disk (env : Env) (shell_override : Option String)
    (dirs : List (Option SessionMeta × List Nat)) : List (String × SessionEntry) :=
  dirs.foldl (loadStep env shell_override) []

/-! ### Client-facing Tauri layer (terminal/commands.rs) -/

/-- The GUI-side `AppState` slices touched by `close_terminal` and
`mark_terminal_stopped`: terminals, PTY handles, output buffers, the
per-terminal files on disk, and each project's terminal list. -/
structure GuiState where
  terminals : List (String × Terminal)
  pty_handles : List (String × Unit)
  output_buffers : List (String × Unit)
  terminal_files : List String
  projects : List (String × List String)
  deriving DecidableEq, Repr

/-- `Project::remove_terminal` applied through `projects.get_mut`. -/
def remove_terminal_from_project (projects : List (String × List String))
    (project_id terminal_id : String) : List (String × List String) :=
  projects.map (fun p =>
    if p.1 = project_id then (p.1, p.2.filter (fun t => t ≠ terminal_id)) else p)

/-- terminal/commands.rs `close_terminal`: a registered terminal with
`is_main` is refused with `InvalidRequest("Cannot close the main terminal")`
before any mutation; otherwise the terminal, its PTY handle, its output buffer
and its on-disk file are removed and the owning project is updated. -/
def close_terminal (st : GuiState) (terminal_id : String) : Except Error GuiState :=
  if (match alookup st.terminals terminal_id with
      | some t => t.is_main
      | none => false) = true then
    Except.error (.InvalidRequest "Cannot close the main terminal")
  else
    let removed := alookup st.terminals terminal_id
    let st := { st with
      terminals := aerase st.terminals terminal_id,
      pty_handles := aerase st.pty_handles terminal_id,
      output_buffers := aerase st.output_buffers terminal_id,
      terminal_files := st.terminal_files.filter (fun f => f ≠ terminal_id) }
    let st := match removed with
      | some t =>
        { st with projects := remove_terminal_from_project st.projects t.project_id terminal_id }
      | none => st
    Except.ok st

/-- terminal/commands.rs `mark_terminal_stopped`: set `status = stopped` if
registered, drop the PTY handle, then re-read and return the terminal (or
`TerminalNotFound`). -/
def mark_terminal_stopped (st : GuiState) (terminal_id : String) :
    Except Error (GuiState × TerminalInfo) :=
  let terminals := match alookup st.terminals terminal_id with
    | some t => ainsert st.terminals terminal_id { t with status := TerminalStatus.stopped }
    | none => st.terminals
  let st := { st with
    terminals := terminals,
    pty_handles := aerase st.pty_handles terminal_id }
  match alookup st.terminals terminal_id with
  | some t => Except.ok (st, TerminalInfo.ofTerminal t)
  | none => Except.error (.TerminalNotFound terminal_id)

/-! ### Notification endpoint (daemon/notification.rs) -/

/-- daemon/notification.rs `AgentEventQuery`. -/
structure AgentEventQuery where
  terminal_id : String
  event : String
  agent : Option String
  project_id : Option String
  payload : Option String
  deriving DecidableEq, Repr

/-- daemon/notification.rs `handle_agent_event`: the list of events sent on
the broadcast channel, in order.  A raw `HookEvent` is always sent; `Start`,
`Stop` and `Permission` additionally send the mapped `AgentStatus`.  (The
Rust `match` on `params.event.as_str()` is the same literal-equality
chain.) -/
def handle_agent_event (params : AgentEventQuery) : List DaemonEvent :=
  let agent := params.agent.getD "unknown"
  let hookEvents : List DaemonEvent :=
    [DaemonEvent.hookEvent params.terminal_id params.project_id agent params.event
      params.payload]
  let status : Option AgentStatus :=
    if params.event = "Start" then some AgentStatus.working
    else if params.event = "Stop" then some AgentStatus.idle
    else if params.event = "Permission" then some AgentStatus.permission
    else none
  match status with
  | some s => hookEvents ++ [DaemonEvent.agentStatus params.terminal_id s]
  | none => hookEvents

/-- Recognizer for `DaemonEvent::HookEvent`. -/
def isHookEvent : DaemonEvent → Bool
  | DaemonEvent.hookEvent _ _ _ _ _ => true
  | _ => false

/-- Recognizer for `DaemonEvent::AgentStatus`. -/
def isAgentStatusEvent : DaemonEvent → Bool
  | DaemonEvent.agentStatus _ _ => true
  | _ => false

/-! ### IPC server request handling (daemon/server.rs) -/

/-- daemon/protocol.rs `RuntimeConfig`. -/
structure RuntimeConfig where
  ada_home : String
  data_dir : String
  daemon_port : Nat
  notification_port : Nat
  shell_override : Option String
  deriving DecidableEq, Repr

/-- daemon/server.rs `RuntimeSettings` (contents of
`<ada_home>/config/runtime.json`). -/
structure RuntimeSettings where
  shell_override : Option String
  deriving DecidableEq, Repr

/-- The server state `handle_request` threads for `SetShellOverride`: the
shared override cell, the runtime config, and the persisted settings file. -/
structure ServerState where
  shell_override : Option String
  runtime : RuntimeConfig
  disk_runtime : Option RuntimeSettings
  deriving DecidableEq, Repr

/-- daemon/server.rs `save_runtime_settings`: an atomic write of the settings
derived from the config; it fails (with an io error) iff `env.persistOk` is
false, leaving the previous file intact. -/
def save_runtime_settings (env : Env) (config : RuntimeConfig) :
    Except Unit RuntimeSettings :=
  if env.persistOk then Except.ok { shell_override := config.shell_override }
  else Except.error ()

/-- daemon/server.rs `handle_request`, `SetShellOverride` arm: store the
override, update the runtime config, attempt to persist — discarding any
error (`let _ = save_runtime_settings(..)`) — and answer `Ok`. -/
def handle_set_shell_override (env : Env) (st : ServerState) (shell : Option String) :
    ServerState × DaemonResponse :=
  let st := { st with shell_override := shell }
  let config := { st.runtime with shell_override := shell }
  let disk := match save_runtime_settings env config with
    | Except.ok s => some s
    | Except.error _ => st.disk_runtime
  ({ st with runtime := config, disk_runtime := disk }, DaemonResponse.Ok)

/-- error.rs `Display` strings (thiserror `#[error(..)]` attributes).  The
`InvalidRequest` line is not present in the snapshot's `error.rs`; its text is
modelled and no claim depends on it. -/
def errMessage : Error → String
  | Error.ProjectNotFound m => "Project not found: " ++ m
  | Error.TerminalNotFound m => "Terminal not found: " ++ m
  | Error.GitError m => "Git error: " ++ m
  | Error.IoError m => "IO error: " ++ m
  | Error.ConfigError m => "Configuration error: " ++ m
  | Error.TerminalError m => "Terminal error: " ++ m
  | Error.ClientNotFound m => "Client not found: " ++ m
  | Error.WorktreeError m => "Worktree error: " ++ m
  | Error.SerializationError m => "Serialization error: " ++ m
  | Error.InvalidRequest m => "Invalid request: " ++ m

/-- daemon/server.rs `handle_request`, `CloseSession` arm: `Ok` on success,
`Error{message}` on failure (the state is only changed by a successful
close). -/
def handle_close_session (now : Nat) (removeOk : Bool) (st : ManagerState)
    (terminal_id : String) : ManagerState × DaemonResponse :=
  match close_session now removeOk st terminal_id with
  | Except.ok st2 => (st2, DaemonResponse.Ok)
  | Except.error e => (st, DaemonResponse.ErrorR (errMessage e))

/-- daemon/server.rs `handle_request`, `MarkSessionStopped` arm. -/
def handle_mark_session_stopped (now : Nat) (st : ManagerState) (terminal_id : String) :
    ManagerState × DaemonResponse :=
  match mark_session_stopped now st terminal_id with
  | Except.ok (st2, status) => (st2, DaemonResponse.TerminalStatusResponse terminal_id status)
  | Except.error e => (st, DaemonResponse.ErrorR (errMessage e))

/-! ### Shell quoting (daemon/session.rs `format_command_line` /
`shell_escape`)

Strings are handled at the character-list level.  `splitLine` models POSIX
shell word recovery for the constructs the escaper emits (single quotes,
backslash escapes outside quotes, space separation), i.e. how `<shell> -c`
re-tokenizes the line into the argv delivered to the program. -/

/-- The single-quote character. -/
def quoteC : Char := Char.ofNat 39

/-- The backslash character. -/
def backslashC : Char := Char.ofNat 92

/-- The space character. -/
def spaceC : Char := Char.ofNat 32

/-- `input.replace('\x27', "\x27\x5c\x27\x27")`: each single quote becomes the
four characters quote, backslash, quote, quote. -/
def escQuote : List Char → List Char
  | [] => []
  | c :: rest =>
    if c = quoteC then quoteC :: backslashC :: quoteC :: quoteC :: escQuote rest
    else c :: escQuote rest

/-- daemon/session.rs `shell_escape`. -/
def shell_escape (s : List Char) : List Char :=
  if s = [] then [quoteC, quoteC]
  else quoteC :: (escQuote s ++ [quoteC])

/-- `Vec::join(" ")`. -/
def joinSpace : List (List Char) → List Char
  | [] => []
  | [w] => w
  | w :: x :: rest => w ++ spaceC :: joinSpace (x :: rest)

/-- daemon/session.rs `format_command_line`: the escaped command followed by
the escaped arguments, joined by single spaces. -/
def format_command_line (command : CommandSpec) : List Char :=
  joinSpace (shell_escape command.command.data :: command.args.map (fun a => shell_escape a.data))

/-- POSIX word scanner: `inQuote` is the single-quote state, `inWord` whether
a word has started, `curr` the current word (reversed), `acc` the finished
words (reversed).  Fails on an unterminated quote or a trailing backslash. -/
def splitAux : List Char → Bool → Bool → List Char → List (List Char) →
    Option (List (List Char))
  | [], true, _, _, _ => none
  | [], false, inWord, curr, acc =>
    some ((if inWord then curr.reverse :: acc else acc).reverse)
  | c :: cs, true, _, curr, acc =>
    if c = quoteC then splitAux cs false true curr acc
    else splitAux cs true true (c :: curr) acc
  | c :: cs, false, inWord, curr, acc =>
    if c = quoteC then splitAux cs true true curr acc
    else if c = backslashC then
      match cs with
      | [] => none
      | d :: cs2 => splitAux cs2 false true (d :: curr) acc
    else if c = spaceC then
      if inWord then splitAux cs false false [] (curr.reverse :: acc)
      else splitAux cs false false [] acc
    else splitAux cs false true (c :: curr) acc

/-- POSIX field splitting of a whole command line. -/
def splitLine (cs : List Char) : Option (List (List Char)) :=
  splitAux cs false false [] []

/-! ### Concrete inputs used by witnesses and counterexamples -/

/-- A minimal concrete `CommandSpec`. -/
def cmd0 : CommandSpec := { command := "/bin/echo", args := ["hi"], env := [] }

/-- A concrete `SessionMeta`. -/
def meta0 : SessionMeta := {
  terminal_id := "t1"
  project_id := "p1"
  name := "n"
  client_id := "shell"
  working_dir := "/tmp"
  branch := none
  worktree_path := none
  folder_path := none
  is_main := false
  mode := TerminalMode.main
  command := cmd0
  shell := some "/bin/bash"
  cols := 80
  rows := 24
  created_at := 0
  last_activity := 0
  ended_at := none
  scrollback_bytes := 0 }

/-- A fresh persistence for `meta0`. -/
def persist0 : SessionPersistence := SessionPersistence.new meta0

/-- A concrete environment where everything succeeds. -/
def env0 : Env :=
  { dirs := ["/tmp"], spawnOk := true, persistOk := true, loginShell := some "/bin/zsh",
    now := 0 }

/-- `env0` at a later instant. -/
def env5 : Env := { env0 with now := 5 }

/-- A concrete environment whose config persistence fails. -/
def envNoPersist : Env := { env0 with persistOk := false }

/-- A concrete `CreateSessionRequest` for id `t1`. -/
def req1 : CreateSessionRequest := {
  terminal_id := "t1"
  project_id := "p1"
  name := "n"
  client_id := "shell"
  working_dir := "/tmp"
  branch := none
  worktree_path := none
  folder_path := none
  is_main := true
  mode := TerminalMode.main
  command := cmd0
  cols := 80
  rows := 24 }

/-- The empty manager state. -/
def mst0 : ManagerState :=
  { sessions := [], disk := [], shell_override := none, events := [] }

/-- A concrete running main terminal `t4`. -/
def t4Terminal : Terminal := {
  id := "t4"
  project_id := "p1"
  name := "main"
  client_id := "shell"
  working_dir := "/tmp"
  branch := none
  worktree_path := none
  status := TerminalStatus.running
  created_at := 0
  command := cmd0
  shell := some "/bin/bash"
  agent_status := AgentStatus.idle
  mode := TerminalMode.main
  is_main := true
  folder_path := none }

/-- The registry entry for `t4Terminal`. -/
def t4Entry : SessionEntry := {
  terminal := t4Terminal
  pty := some ()
  persistence := SessionPersistence.new { meta0 with terminal_id := "t4", is_main := true }
  cols := 80
  rows := 24
  shutdown := false
  reader_handle := some () }

/-- A manager state holding only the main session `t4`. -/
def mstMain : ManagerState :=
  { sessions := [("t4", t4Entry)], disk := ["t4"], shell_override := none, events := [] }

/-- A GUI state holding only the main terminal `t4`. -/
def gstMain : GuiState :=
  { terminals := [("t4", t4Terminal)]
    pty_handles := [("t4", ())]
    output_buffers := [("t4", ())]
    terminal_files := ["t4"]
    projects := [("p1", ["t4"])] }

/-- A concrete server state. -/
def srv0 : ServerState :=
  { shell_override := none
    runtime := { ada_home := "/home/u/.ada", data_dir := "/home/u/data", daemon_port := 0,
                 notification_port := 0, shell_override := none }
    disk_runtime := none }

/-- A chunk one byte longer than the scrollback cap. -/
def bigChunk : List Nat := List.replicate (MAX_SCROLLBACK_BYTES + 1) 65

/-- `Except.isOk` as a local helper. -/
def isOkE {ε α : Type} : Except ε α → Bool
  | Except.ok _ => true
  | Except.error _ => false

/-- The success value of an `Except`, if any. -/
def okValue {ε α : Type} : Except ε α → Option α
  | Except.ok a => some a
  | Except.error _ => none

/-- Two `create_session` calls with the same id (`req1`), the second issued at
a later instant on the state produced by the first. -/
def twoCreates : Except Error (ManagerState × TerminalInfo) :=
  match create_session env0 mst0 req1 with
  | Except.ok (st1, _) => create_session env5 st1 req1
  | Except.error e => Except.error e

/-- The manager state after closing `t4` in `mstMain` with the directory
removal succeeding (the close succeeds). -/
def mstAfterClose : ManagerState :=
  match close_session 0 true mstMain "t4" with
  | Except.ok st => st
  | Except.error _ => mstMain

/-- The manager state after closing `t4` in `mstMain` while
`fs::remove_dir_all` fails (the close still succeeds, its error being
discarded). -/
def mstAfterCloseNoFs : ManagerState :=
  match close_session 0 false mstMain "t4" with
  | Except.ok st => st
  | Except.error _ => mstMain


/-- The manager state after a first successful `create_session` of `req1`. -/
def mstWithT1 : ManagerState :=
  match create_session env0 mst0 req1 with
  | Except.ok (st, _) => st
  | Except.error _ => mst0

/-! ### Shared helper lemmas -/

theorem alookup_aerase {α : Type} (l : List (String × α)) (k : String) :
    alookup (aerase l k) k = none := by
  induction l with
  | nil => simp [aerase, alookup]
  | cons p rest ih =>
    by_cases h : p.1 = k <;> simp [aerase, alookup, h, ih]

theorem alookup_ainsert_self {α : Type} (l : List (String × α)) (k : String) (v : α) :
    alookup (ainsert l k v) k = some v := by
  simp [ainsert, alookup]

theorem aerase_filter_nil {α : Type} (l : List (String × α)) (k : String) :
    (aerase l k).filter (fun q => q.1 = k) = [] := by
  induction l with
  | nil => simp [aerase]
  | cons p rest ih =>
    by_cases h : p.1 = k <;> simp [aerase, h, ih]

theorem truncate_utf8_safe_length (bs : List Nat) :
    (truncate_utf8_safe bs).length ≤ bs.length := by
  simp only [truncate_utf8_safe]
  split_ifs <;> simp

theorem utf8LossyBytes_eq_of_valid : ∀ (bs : List Nat), validUtf8 bs = true → utf8LossyBytes bs = bs := by
  intro bs
  induction bs using utf8LossyBytes.induct with
  | case1 => intro _; simp [utf8LossyBytes]
  | case2 b rest hb ih =>
    intro hv
    rw [validUtf8.eq_def] at hv
    simp [hb] at hv
    rw [utf8LossyBytes.eq_def]
    simp [hb, ih hv]
  | case3 b hb1 hb2 c rest2 hc ih =>
    intro hv
    rw [validUtf8.eq_def] at hv
    simp [hb1, hb2, hc] at hv
    rw [utf8LossyBytes.eq_def]
    simp [hb1, hb2, hc, ih hv]
  | case4 b hb1 hb2 c rest2 hc ih =>
    intro hv
    rw [validUtf8.eq_def] at hv
    simp [hb1, hb2, hc] at hv
  | case5 b hb1 hb2 =>
    intro hv
    rw [validUtf8.eq_def] at hv
    simp [hb1, hb2] at hv
  | case6 b hb1 hb2 hb3 c hc d rest3 hd heq ih =>
    intro hv
    rw [validUtf8.eq_def] at hv
    simp [hb1, hb2, hb3, hc, hd] at hv
    rw [utf8LossyBytes.eq_def]
    simp [hb1, hb2, hb3, hc, hd, ih hv]
  | case7 b hb1 hb2 hb3 c hc d rest3 hd heq ih =>
    intro hv
    rw [validUtf8.eq_def] at hv
    simp [hb1, hb2, hb3, hc, hd] at hv
  | case8 b hb1 hb2 hb3 c hc heq =>
    intro hv
    rw [validUtf8.eq_def] at hv
    simp [hb1, hb2, hb3, hc] at hv
  | case9 b hb1 hb2 hb3 c rest2 hc ih =>
    intro hv
    rw [validUtf8.eq_def] at hv
    simp [hb1, hb2, hb3, hc] at hv
  | case10 b hb1 hb2 hb3 =>
    intro hv
    rw [validUtf8.eq_def] at hv
    simp [hb1, hb2, hb3] at hv
  | case11 b hb1 hb2 hb3 hb4 c hc d hd e rest4 he heq1 heq2 heq3 ih =>
    intro hv
    rw [validUtf8.eq_def] at hv
    simp [hb1, hb2, hb3, hb4, hc, hd, he] at hv
    rw [utf8LossyBytes.eq_def]
    simp [hb1, hb2, hb3, hb4, hc, hd, he, ih hv]
  | case12 b hb1 hb2 hb3 hb4 c hc d hd e rest4 he heq1 heq2 heq3 ih =>
    intro hv
    rw [validUtf8.eq_def] at hv
    simp [hb1, hb2, hb3, hb4, hc, hd, he] at hv
  | case13 b hb1 hb2 hb3 hb4 c hc d hd heq1 heq2 heq3 =>
    intro hv
    rw [validUtf8.eq_def] at hv
    simp [hb1, hb2, hb3, hb4, hc, hd] at hv
  | case14 b hb1 hb2 hb3 hb4 c hc d rest3 hd heq ih =>
    intro hv
    rw [validUtf8.eq_def] at hv
    simp [hb1, hb2, hb3, hb4, hc, hd] at hv
  | case15 b hb1 hb2 hb3 hb4 c hc heq =>
    intro hv
    rw [validUtf8.eq_def] at hv
    simp [hb1, hb2, hb3, hb4, hc] at hv
  | case16 b hb1 hb2 hb3 hb4 c rest2 hc ih =>
    intro hv
    rw [validUtf8.eq_def] at hv
    simp [hb1, hb2, hb3, hb4, hc] at hv
  | case17 b hb1 hb2 hb3 hb4 =>
    intro hv
    rw [validUtf8.eq_def] at hv
    simp [hb1, hb2, hb3, hb4] at hv
  | case18 b rest hb1 hb2 hb3 hb4 ih =>
    intro hv
    rw [validUtf8.eq_def] at hv
    simp [hb1, hb2, hb3, hb4] at hv

theorem rotate_scrollback_le (p : SessionPersistence) :
    (rotate_scrollback p).file.length ≤ KEEP_AFTER_ROTATE := by
  have h1 := truncate_utf8_safe_length (p.file.drop (p.file.length - KEEP_AFTER_ROTATE))
  simp only [rotate_scrollback]
  simp only [List.length_drop] at h1
  omega

theorem rotate_scrollback_bw (p : SessionPersistence) :
    (rotate_scrollback p).bytes_written = (rotate_scrollback p).file.length := by
  simp [rotate_scrollback]

theorem write_output_file (now : Nat) (p : SessionPersistence) (data : List Nat) :
    (write_output now p data).file =
      (if MAX_SCROLLBACK_BYTES < p.bytes_written + data.length then rotate_scrollback p
       else p).file ++ data := by
  simp only [write_output]
  split_ifs <;> rfl

theorem write_output_bw (now : Nat) (p : SessionPersistence) (data : List Nat) :
    (write_output now p data).bytes_written =
      (if MAX_SCROLLBACK_BYTES < p.bytes_written + data.length then rotate_scrollback p
       else p).bytes_written + data.length := by
  simp only [write_output]
  split_ifs <;> rfl

theorem write_output_file_no_rotate (now : Nat) (p : SessionPersistence) (data : List Nat)
    (h : p.bytes_written + data.length ≤ MAX_SCROLLBACK_BYTES) :
    (write_output now p data).file = p.file ++ data := by
  rw [write_output_file, if_neg (by omega)]

/-! ### C8 -/

/-- C8 (counterexample): on `[0xFF]` a drop of one head byte (at most 3)
leaves valid UTF-8, yet `truncate_utf8_safe` returns the input unchanged, not
that suffix. -/
theorem truncate_utf8_safe_counterexample :
    truncate_utf8_safe [255] = [255] ∧
    truncate_utf8_safe [255] ≠ List.drop 1 [255] ∧
    validUtf8 (List.drop 1 [255]) = true ∧
    (∀ j, j < 1 → validUtf8 (List.drop j [255]) = false) := by decide

/-- If the guarded branch condition fails but the guard holds, the UTF-8
check must have been false. -/
theorem not_and_valid {P : Prop} {b : Bool} (h : ¬(P ∧ b = true)) (hp : P) : b = false := by
  cases hb : b
  · rfl
  · exact absurd ⟨hp, hb⟩ h

/-- C8 (amended): `truncate_utf8_safe b` drops the smallest number `k` of head
bytes with `k < min 4 b.length` (so at most 3, and never the whole input) such
that the remainder is valid UTF-8; if no such `k` exists it returns `b`
unchanged. -/
theorem truncate_utf8_safe_spec (bs : List Nat) :
    (∃ k, k < min 4 bs.length ∧ truncate_utf8_safe bs = bs.drop k ∧
      validUtf8 (bs.drop k) = true ∧ ∀ j, j < k → validUtf8 (bs.drop j) = false) ∨
    (truncate_utf8_safe bs = bs ∧
      ∀ j, j < min 4 bs.length → validUtf8 (bs.drop j) = false) := by
  by_cases h0 : 0 < min 4 bs.length ∧ validUtf8 (bs.drop 0) = true
  · refine Or.inl ⟨0, h0.1, ?_, h0.2, by omega⟩
    simp only [truncate_utf8_safe]
    rw [if_pos h0]
  · by_cases h1 : 1 < min 4 bs.length ∧ validUtf8 (bs.drop 1) = true
    · refine Or.inl ⟨1, h1.1, ?_, h1.2, ?_⟩
      · simp only [truncate_utf8_safe]
        rw [if_neg h0, if_pos h1]
      · intro j hj
        interval_cases j
        exact not_and_valid h0 (by omega)
    · by_cases h2 : 2 < min 4 bs.length ∧ validUtf8 (bs.drop 2) = true
      · refine Or.inl ⟨2, h2.1, ?_, h2.2, ?_⟩
        · simp only [truncate_utf8_safe]
          rw [if_neg h0, if_neg h1, if_pos h2]
        · intro j hj
          interval_cases j
          · exact not_and_valid h0 (by omega)
          · exact not_and_valid h1 (by omega)
      · by_cases h3 : 3 < min 4 bs.length ∧ validUtf8 (bs.drop 3) = true
        · refine Or.inl ⟨3, h3.1, ?_, h3.2, ?_⟩
          · simp only [truncate_utf8_safe]
            rw [if_neg h0, if_neg h1, if_neg h2, if_pos h3]
          · intro j hj
            interval_cases j
            · exact not_and_valid h0 (by omega)
            · exact not_and_valid h1 (by omega)
            · exact not_and_valid h2 (by omega)
        · refine Or.inr ⟨?_, ?_⟩
          · simp only [truncate_utf8_safe]
            rw [if_neg h0, if_neg h1, if_neg h2, if_neg h3]
          · intro j hj
            have hj4 : j < 4 := by omega
            interval_cases j
            · exact not_and_valid h0 (by omega)
            · exact not_and_valid h1 (by omega)
            · exact not_and_valid h2 (by omega)
            · exact not_and_valid h3 (by omega)

/-! ### C2 -/

/-- C2 (counterexample): a single `write_output` of a chunk one byte over the
cap leaves the scrollback file longer than `MAX_SCROLLBACK_BYTES`. -/
theorem scrollback_cap_counterexample :
    MAX_SCROLLBACK_BYTES < (write_output 0 persist0 bigChunk).file.length := by
  have hlen : bigChunk.length = MAX_SCROLLBACK_BYTES + 1 := List.length_replicate _ _
  have hbw : persist0.bytes_written = 0 := rfl
  rw [write_output_file, if_pos (by omega)]
  have hrot : (rotate_scrollback persist0).file = [] := by
    have hfile : persist0.file = [] := rfl
    simp [rotate_scrollback, hfile, truncate_utf8_safe]
  rw [hrot]
  simp [hlen]

/-- C2 (amended): provided the in-memory counter matches the file length and
the written chunk is at most `MAX_SCROLLBACK_BYTES - KEEP_AFTER_ROTATE`
(1 MiB; the PTY reader writes at most 4096 bytes at a time), the scrollback
file is at most `MAX_SCROLLBACK_BYTES` after `write_output`, the counter still
matches, and the content retained by a rotation is at most
`KEEP_AFTER_ROTATE`. -/
theorem write_output_bounded (now : Nat) (p : SessionPersistence) (data : List Nat)
    (hinv : p.bytes_written = p.file.length)
    (hlen : data.length ≤ MAX_SCROLLBACK_BYTES - KEEP_AFTER_ROTATE) :
    (write_output now p data).file.length ≤ MAX_SCROLLBACK_BYTES ∧
    (write_output now p data).bytes_written = (write_output now p data).file.length ∧
    (rotate_scrollback p).file.length ≤ KEEP_AFTER_ROTATE := by
  have hkm : KEEP_AFTER_ROTATE ≤ MAX_SCROLLBACK_BYTES := by
    simp [KEEP_AFTER_ROTATE, MAX_SCROLLBACK_BYTES]
  have hsub : MAX_SCROLLBACK_BYTES - KEEP_AFTER_ROTATE + KEEP_AFTER_ROTATE =
      MAX_SCROLLBACK_BYTES := by
    simp [KEEP_AFTER_ROTATE, MAX_SCROLLBACK_BYTES]
  have hrotlen := rotate_scrollback_le p
  have hrotbw := rotate_scrollback_bw p
  refine ⟨?_, ?_, hrotlen⟩
  · rw [write_output_file]
    split_ifs with hc
    · simp only [List.length_append]
      omega
    · simp only [List.length_append]
      omega
  · rw [write_output_file, write_output_bw]
    split_ifs with hc
    · simp only [List.length_append]
      omega
    · simp only [List.length_append]
      omega

/-- C2 (witness). -/
theorem write_output_bounded_witness :
    (write_output 0 persist0 [104, 105]).file.length ≤ MAX_SCROLLBACK_BYTES ∧
    (write_output 0 persist0 [104, 105]).bytes_written =
      (write_output 0 persist0 [104, 105]).file.length ∧
    (rotate_scrollback persist0).file.length ≤ KEEP_AFTER_ROTATE :=
  write_output_bounded 0 persist0 [104, 105] (by decide) (by decide)

/-! ### C6 -/

/-- C6 (counterexample): the reader thread feeds the chunk through
`String::from_utf8_lossy`, so the invalid byte `0xFF` is appended as the
U+FFFD encoding `EF BF BD`, not as the byte that was read. -/
theorem reader_append_mutates_invalid :
    (reader_append 0 persist0 [255]).file = [239, 191, 189] ∧
    (reader_append 0 persist0 [255]).file ≠ persist0.file ++ [255] := by
  have hl : utf8LossyBytes [255] = [239, 191, 189] := by
    rw [utf8LossyBytes.eq_def]
    simp [utf8Rep, utf8LossyBytes]
  constructor
  · rw [reader_append, hl, write_output_file_no_rotate]
    · simp [persist0, SessionPersistence.new]
    · simp [persist0, SessionPersistence.new, MAX_SCROLLBACK_BYTES]
  · rw [reader_append, hl, write_output_file_no_rotate]
    · simp [persist0, SessionPersistence.new]
    · simp [persist0, SessionPersistence.new, MAX_SCROLLBACK_BYTES]

/-- C6 (amended): `write_output` appends its input bytes unmodified (no UTF-8
validation happens at write time; UTF-8-safe truncation only runs inside
rotation), and for a chunk that is valid UTF-8 the reader's lossy decoding is
the identity, so exactly the bytes read are appended. -/
theorem reader_append_exact (now : Nat) (p : SessionPersistence) (chunk : List Nat)
    (hvalid : validUtf8 chunk = true)
    (hnorot : p.bytes_written + chunk.length ≤ MAX_SCROLLBACK_BYTES) :
    (write_output now p chunk).file = p.file ++ chunk ∧
    (reader_append now p chunk).file = p.file ++ chunk := by
  have hid := utf8LossyBytes_eq_of_valid chunk hvalid
  refine ⟨write_output_file_no_rotate now p chunk hnorot, ?_⟩
  rw [reader_append, hid]
  exact write_output_file_no_rotate now p chunk hnorot

/-- C6 (witness). -/
theorem reader_append_exact_witness :
    (write_output 0 persist0 [104, 105]).file = persist0.file ++ [104, 105] ∧
    (reader_append 0 persist0 [104, 105]).file = persist0.file ++ [104, 105] :=
  reader_append_exact 0 persist0 [104, 105] (by decide) (by decide)


/-! ### C5 -/

/-- C5: every hook call emits exactly one `HookEvent` carrying the query's
fields with `agent` defaulting to `"unknown"`, and exactly one additional
`AgentStatus` iff the event is `Start`, `Stop` or `Permission`, mapped to
`working`, `idle` and `permission` respectively; any other event value emits
no `AgentStatus`. -/
theorem hook_event_emission (params : AgentEventQuery) :
    (handle_agent_event params).filter isHookEvent =
      [DaemonEvent.hookEvent params.terminal_id params.project_id
        (params.agent.getD "unknown") params.event params.payload] ∧
    (handle_agent_event params).countP isAgentStatusEvent =
      (if params.event = "Start" ∨ params.event = "Stop" ∨ params.event = "Permission"
        then 1 else 0) ∧
    ((DaemonEvent.agentStatus params.terminal_id AgentStatus.working ∈ handle_agent_event params)
      ↔ params.event = "Start") ∧
    ((DaemonEvent.agentStatus params.terminal_id AgentStatus.idle ∈ handle_agent_event params)
      ↔ params.event = "Stop") ∧
    ((DaemonEvent.agentStatus params.terminal_id AgentStatus.permission ∈ handle_agent_event params)
      ↔ params.event = "Permission") := by
  by_cases h1 : params.event = "Start" <;>
    by_cases h2 : params.event = "Stop" <;>
      by_cases h3 : params.event = "Permission" <;>
        simp_all [handle_agent_event, isHookEvent, isAgentStatusEvent,
          List.filter, List.countP, List.countP.go]

/-! ### C7 -/

/-- C7: on recovery, a PTY respawn is attempted iff the persisted `ended_at`
is null; a failed respawn still yields an entry with status `stopped` and no
PTY or reader; a non-null `ended_at` yields status `stopped`, no PTY, no
reader; and a directory whose `meta.json` fails to parse is skipped without
affecting the rest of the recovery. -/
theorem load_from_disk_spec (env : Env) (so : Option String) :
    (∀ (meta : SessionMeta) (scrollback : List Nat),
      ((load_entry env so meta scrollback).2 = true ↔ meta.ended_at = none) ∧
      (load_entry env so meta scrollback).1.terminal.status =
        (if meta.ended_at = none ∧ env.spawnOk = true then TerminalStatus.running
         else TerminalStatus.stopped) ∧
      (load_entry env so meta scrollback).1.pty =
        (if meta.ended_at = none ∧ env.spawnOk = true then some () else none) ∧
      (load_entry env so meta scrollback).1.reader_handle =
        (if meta.ended_at = none ∧ env.spawnOk = true then some () else none)) ∧
    (∀ (pre post : List (Option SessionMeta × List Nat)) (scrollback : List Nat),
      load_from_disk env so (pre ++ (none, scrollback) :: post) =
        load_from_disk env so (pre ++ post)) := by
  constructor
  · intro meta scrollback
    rcases hend : meta.ended_at with _ | t <;>
      rcases hs : env.spawnOk <;>
        simp [load_entry, spawn_pty, hend, hs]
  · intro pre post scrollback
    have key : ∀ (acc : List (String × SessionEntry)),
        List.foldl (loadStep env so) acc (pre ++ (none, scrollback) :: post) =
          List.foldl (loadStep env so) acc (pre ++ post) := by
      induction pre with
      | nil => intro acc; simp [loadStep]
      | cons d rest ih => intro acc; simp only [List.cons_append, List.foldl_cons]; exact ih _
    exact key []

/-! ### C9 -/

/-- C9 (counterexample): with persistence failing, `set_shell_override` still
answers `Ok` (the io error from `save_runtime_settings` is discarded), so no
io-error response is produced. -/
theorem set_shell_override_ignores_persist_failure :
    envNoPersist.persistOk = false ∧
    (handle_set_shell_override envNoPersist srv0 (some "/bin/zsh")).2 = DaemonResponse.Ok ∧
    (handle_set_shell_override envNoPersist srv0 (some "/bin/zsh")).1.disk_runtime = none := by
  decide

/-- C9 (amended): `set_shell_override` always returns `Ok`; the override is
stored in the shared cell and the runtime config, and the on-disk
`runtime.json` is updated exactly when persisting succeeds (a failure is
silently ignored, leaving the previous file). -/
theorem set_shell_override_always_ok (env : Env) (st : ServerState) (shell : Option String) :
    (handle_set_shell_override env st shell).2 = DaemonResponse.Ok ∧
    (handle_set_shell_override env st shell).1.shell_override = shell ∧
    (handle_set_shell_override env st shell).1.runtime.shell_override = shell ∧
    (handle_set_shell_override env st shell).1.disk_runtime =
      (if env.persistOk = true then some { shell_override := shell } else st.disk_runtime) := by
  unfold handle_set_shell_override save_runtime_settings
  split_ifs <;> simp_all

/-! ### C4 -/

/-- C4 (counterexample): when `fs::remove_dir_all` fails, `close_session`
still returns success (the source discards the error with `let _ = ..`), the
record is gone from the registry, yet the on-disk directory survives — so a
successful return does not imply the directory was removed. -/
theorem close_session_dir_survives :
    close_session 0 false mstMain "t4" = Except.ok mstAfterCloseNoFs ∧
    alookup mstAfterCloseNoFs.sessions "t4" = none ∧
    "t4" ∈ mstAfterCloseNoFs.disk := by
  refine ⟨rfl, ?_, ?_⟩ <;> decide

/-- C4 (amended): if `close_session(id)` returns success then a subsequent
`get_session(id)` answers `TerminalNotFound` and the in-memory record is
removed from the registry; the on-disk directory removal is only attempted —
its failure is ignored — so `<sessions_dir>/<id>/` is gone exactly when the
`fs::remove_dir_all` call succeeds. -/
theorem close_session_removes (now : Nat) (removeOk : Bool) (st st2 : ManagerState)
    (tid : String) (h : close_session now removeOk st tid = Except.ok st2) :
    get_session st2 tid = Except.error (.TerminalNotFound tid) ∧
    alookup st2.sessions tid = none ∧
    st2.disk = (if removeOk = true then removeDir st.disk tid else st.disk) ∧
    tid ∉ removeDir st.disk tid := by
  unfold close_session at h
  cases hl : alookup st.sessions tid with
  | none => rw [hl] at h; cases h
  | some entry =>
    rw [hl] at h
    cases h
    refine ⟨?_, ?_, ?_, ?_⟩
    · unfold get_session
      simp [emit_status, alookup_aerase]
    · simp [emit_status, alookup_aerase]
    · cases removeOk <;> simp [emit_status]
    · simp [removeDir]

/-- C4 (witness). -/
theorem close_session_removes_witness :
    get_session mstAfterClose "t4" = Except.error (.TerminalNotFound "t4") ∧
    alookup mstAfterClose.sessions "t4" = none ∧
    mstAfterClose.disk = (if true = true then removeDir mstMain.disk "t4" else mstMain.disk) ∧
    "t4" ∉ removeDir mstMain.disk "t4" :=
  close_session_removes 0 true mstMain mstAfterClose "t4" (by rfl)


/-! ### C1 -/

/-- C1 (counterexample): the daemon-level public `close_session` performs no
`is_main` check: on the registered main session `t4` it answers `Ok` (not an
`invalid_request` error) and removes the session from the registry. -/
theorem close_session_no_main_check :
    (alookup mstMain.sessions "t4").map (fun e => e.terminal.is_main) = some true ∧
    (handle_close_session 0 true mstMain "t4").2 = DaemonResponse.Ok ∧
    alookup (handle_close_session 0 true mstMain "t4").1.sessions "t4" = none := by
  decide

/-- C1 (amended): the `is_main` refusal lives in the client-facing Tauri
command `close_terminal`, which refuses a registered main terminal with
`InvalidRequest("Cannot close the main terminal")` and leaves the state
untouched, while `mark_terminal_stopped` / `mark_session_stopped` succeed on
the same session, return status `stopped`, and keep it registered; the
daemon-level `close_session` itself performs no `is_main` check. -/
theorem main_session_close_refused (gst : GuiState) (tid : String) (t : Terminal)
    (now : Nat) (mst : ManagerState) (e : SessionEntry)
    (hg : alookup gst.terminals tid = some t) (hmain : t.is_main = true)
    (hm : alookup mst.sessions tid = some e) :
    close_terminal gst tid =
      Except.error (Error.InvalidRequest "Cannot close the main terminal") ∧
    (∃ gst2 info, mark_terminal_stopped gst tid = Except.ok (gst2, info) ∧
      info.status = TerminalStatus.stopped ∧
      alookup gst2.terminals tid = some { t with status := TerminalStatus.stopped }) ∧
    (∃ mst2, mark_session_stopped now mst tid = Except.ok (mst2, TerminalStatus.stopped) ∧
      alookup mst2.sessions tid ≠ none) ∧
    (handle_mark_session_stopped now mst tid).2 =
      DaemonResponse.TerminalStatusResponse tid TerminalStatus.stopped := by
  refine ⟨?_, ?_, ?_, ?_⟩
  · simp [close_terminal, hg, hmain]
  · have hmt : mark_terminal_stopped gst tid =
        Except.ok
          ({ gst with
              terminals := ainsert gst.terminals tid { t with status := TerminalStatus.stopped },
              pty_handles := aerase gst.pty_handles tid },
            TerminalInfo.ofTerminal { t with status := TerminalStatus.stopped }) := by
      simp [mark_terminal_stopped, hg, alookup_ainsert_self]
    exact ⟨_, _, hmt, rfl, alookup_ainsert_self _ _ _⟩
  · have hms : mark_session_stopped now mst tid =
        Except.ok
          ({ mst with
              sessions := ainsert mst.sessions tid
                { e with
                    pty := none,
                    terminal := { e.terminal with status := TerminalStatus.stopped },
                    persistence := mark_ended now e.persistence },
              events := mst.events ++
                [DaemonEvent.terminalStatus e.terminal.id e.terminal.project_id
                  TerminalStatus.stopped] },
            TerminalStatus.stopped) := by
      simp [mark_session_stopped, hm, emit_status, mark_ended]
    refine ⟨_, hms, ?_⟩
    simp [alookup_ainsert_self]
  · simp [handle_mark_session_stopped, mark_session_stopped, hm, emit_status]

/-- C1 (witness). -/
theorem main_session_close_refused_witness :
    close_terminal gstMain "t4" =
      Except.error (Error.InvalidRequest "Cannot close the main terminal") ∧
    (∃ gst2 info, mark_terminal_stopped gstMain "t4" = Except.ok (gst2, info) ∧
      info.status = TerminalStatus.stopped ∧
      alookup gst2.terminals "t4" =
        some { t4Terminal with status := TerminalStatus.stopped }) ∧
    (∃ mst2, mark_session_stopped 0 mstMain "t4" = Except.ok (mst2, TerminalStatus.stopped) ∧
      alookup mst2.sessions "t4" ≠ none) ∧
    (handle_mark_session_stopped 0 mstMain "t4").2 =
      DaemonResponse.TerminalStatusResponse "t4" TerminalStatus.stopped :=
  main_session_close_refused gstMain "t4" t4Terminal 0 mstMain t4Entry rfl rfl rfl

/-! ### C3 -/

/-- C3 (counterexample): two otherwise-valid `create_session` calls with the
same id `t1` BOTH succeed (the duplicate is not rejected); the registry entry
left behind is the second call's (its `created_at` is the second call's
instant) and it is the only `t1` entry. -/
theorem duplicate_create_both_succeed :
    isOkE (create_session env0 mst0 req1) = true ∧
    isOkE twoCreates = true ∧
    (okValue twoCreates).map
      (fun r => (alookup r.1.sessions "t1").map (fun e => e.terminal.created_at)) =
      some (some 5) ∧
    (okValue twoCreates).map
      (fun r => (r.1.sessions.filter (fun q => q.1 = "t1")).length) = some 1 := by
  decide

/-- C3 (amended): `create_session` on a valid request succeeds regardless of
whether the id is already registered; the `HashMap::insert` makes the new
entry the single surviving binding for that id (the source implicitly
overwrites; only a nonexistent working directory is refused with
`invalid_request`). -/
theorem create_session_duplicate_id (env : Env) (st : ManagerState)
    (req : CreateSessionRequest)
    (hdir : req.working_dir ∈ env.dirs) (hspawn : env.spawnOk = true) :
    ∃ st2 info, create_session env st req = Except.ok (st2, info) ∧
      (∃ e, alookup st2.sessions req.terminal_id = some e ∧
        e.terminal.id = req.terminal_id ∧ e.terminal.created_at = env.now) ∧
      (st2.sessions.filter (fun q => q.1 = req.terminal_id)).length = 1 := by
  simp only [create_session, spawn_pty, hspawn, if_pos hdir, if_true]
  refine ⟨_, _, rfl, ⟨_, alookup_ainsert_self _ _ _, rfl, rfl⟩, ?_⟩
  simp [emit_status, ainsert, aerase_filter_nil]

/-- C3 (witness): the second call, on a state already holding `t1`. -/
theorem create_session_duplicate_id_witness :
    ∃ st2 info, create_session env5 mstWithT1 req1 = Except.ok (st2, info) ∧
      (∃ e, alookup st2.sessions req1.terminal_id = some e ∧
        e.terminal.id = req1.terminal_id ∧ e.terminal.created_at = env5.now) ∧
      (st2.sessions.filter (fun q => q.1 = req1.terminal_id)).length = 1 :=
  create_session_duplicate_id env5 mstWithT1 req1 (by decide) rfl


/-! ### C10 -/

theorem backslashC_ne_quoteC : ¬ backslashC = quoteC := by decide

theorem spaceC_ne_quoteC : ¬ spaceC = quoteC := by decide

theorem spaceC_ne_backslashC : ¬ spaceC = backslashC := by decide

theorem splitAux_nil_out (iw : Bool) (curr : List Char) (acc : List (List Char)) :
    splitAux [] false iw curr acc =
      some ((if iw then curr.reverse :: acc else acc).reverse) := by
  rw [splitAux.eq_def]

theorem splitAux_in_quote_close (xs : List Char) (iw : Bool) (curr : List Char)
    (acc : List (List Char)) :
    splitAux (quoteC :: xs) true iw curr acc = splitAux xs false true curr acc := by
  rw [splitAux.eq_def]
  simp

theorem splitAux_in_quote_char (c : Char) (hc : ¬ c = quoteC) (xs : List Char) (iw : Bool)
    (curr : List Char) (acc : List (List Char)) :
    splitAux (c :: xs) true iw curr acc = splitAux xs true true (c :: curr) acc := by
  rw [splitAux.eq_def]
  simp [hc]

theorem splitAux_out_quote_open (xs : List Char) (iw : Bool) (curr : List Char)
    (acc : List (List Char)) :
    splitAux (quoteC :: xs) false iw curr acc = splitAux xs true true curr acc := by
  rw [splitAux.eq_def]
  simp

theorem splitAux_out_backslash (d : Char) (xs : List Char) (iw : Bool) (curr : List Char)
    (acc : List (List Char)) :
    splitAux (backslashC :: d :: xs) false iw curr acc =
      splitAux xs false true (d :: curr) acc := by
  rw [splitAux.eq_def]
  simp [backslashC_ne_quoteC]

theorem splitAux_out_space_inword (xs : List Char) (curr : List Char)
    (acc : List (List Char)) :
    splitAux (spaceC :: xs) false true curr acc =
      splitAux xs false false [] (curr.reverse :: acc) := by
  rw [splitAux.eq_def]
  simp [spaceC_ne_quoteC, spaceC_ne_backslashC]

/-- Scanning an escaped body from inside single quotes up to the closing
quote accumulates exactly the original characters. -/
theorem splitAux_quoted (w : List Char) : ∀ (cs curr : List Char) (acc : List (List Char)),
    splitAux (escQuote w ++ quoteC :: cs) true true curr acc =
      splitAux cs false true (w.reverse ++ curr) acc := by
  induction w with
  | nil =>
    intro cs curr acc
    simp [escQuote, splitAux_in_quote_close]
  | cons c rest ih =>
    intro cs curr acc
    by_cases hc : c = quoteC
    · subst hc
      simp only [escQuote, eq_self_iff_true, if_true, List.cons_append]
      rw [splitAux_in_quote_close, splitAux_out_backslash, splitAux_out_quote_open, ih]
      simp
    · simp only [escQuote, if_neg hc, List.cons_append]
      rw [splitAux_in_quote_char c hc, ih]
      simp

/-- Scanning one escaped word from outside a word accumulates exactly the
original characters and stops in the in-word state. -/
theorem splitAux_word (w : List Char) (cs : List Char) (acc : List (List Char)) :
    splitAux (shell_escape w ++ cs) false false [] acc =
      splitAux cs false true w.reverse acc := by
  by_cases hw : w = []
  · subst hw
    simp only [shell_escape, eq_self_iff_true, if_true, List.cons_append, List.nil_append]
    rw [splitAux_out_quote_open, splitAux_in_quote_close]
    simp
  · have h1 : shell_escape w ++ cs = quoteC :: (escQuote w ++ (quoteC :: cs)) := by
      simp [shell_escape, hw]
    rw [h1, splitAux_out_quote_open, splitAux_quoted]
    simp

/-- Scanning a space-joined list of escaped words recovers exactly the
original words. -/
theorem splitAux_words (ws : List (List Char)) : ∀ (acc : List (List Char)),
    splitAux (joinSpace (ws.map shell_escape)) false false [] acc =
      some (acc.reverse ++ ws) := by
  induction ws with
  | nil =>
    intro acc
    simp only [List.map_nil, joinSpace]
    rw [splitAux_nil_out]
    simp
  | cons w rest ih =>
    intro acc
    cases rest with
    | nil =>
      simp only [List.map_cons, List.map_nil, joinSpace]
      rw [← List.append_nil (shell_escape w), splitAux_word, splitAux_nil_out]
      simp
    | cons x rest2 =>
      simp only [List.map_cons, joinSpace]
      rw [splitAux_word, splitAux_out_space_inword, List.reverse_reverse]
      have ih2 := ih (w :: acc)
      simp only [List.map_cons] at ih2
      rw [ih2]
      simp

/-- C10: `shell_escape` produces a single shell word whose POSIX unquoting is
exactly the input (the empty string becomes a quoted empty word), and the
`<shell> -c` line built by `format_command_line` re-tokenizes to exactly the
original command followed by its arguments, whatever spaces, quotes or other
metacharacters they contain. -/
theorem format_command_line_roundtrip (command : CommandSpec) :
    splitLine (format_command_line command) =
      some (command.command.data :: command.args.map String.data) ∧
    ∀ s : String, splitLine (shell_escape s.data) = some [s.data] := by
  constructor
  · have h := splitAux_words (command.command.data :: command.args.map String.data) []
    simp only [List.map_cons, List.map_map] at h
    simpa [splitLine, format_command_line, Function.comp] using h
  · intro s
    have h := splitAux_words [s.data] []
    simpa [splitLine, joinSpace] using h

end Ada
